import Mathlib

/-!
Verification development for the request-orchestration core of the
centerfuze-opentext-service repository: the token-bucket rate limiter
(app/utils/rate_limiter.py), the TTL cache (app/utils/cache_manager.py)
and the batch fan-out of the OpenText service (app/services/opentext_service.py).

Modelling conventions:
* Python floats (timestamps, rates, response times) are embedded as rationals.
* Python ints are embedded as Int; Python int() truncation toward zero is pyInt.
* Fallible operations (a raised exception) return Option, with Option.none for
  the raised case; operations that mutate state return the new state explicitly.
* Each definition carries a doc comment naming the source function it embeds.
-/

/-- Python int() applied to a float: truncation toward zero. -/
def pyInt (q : ℚ) : Int := if q < 0 then -(⌊-q⌋) else ⌊q⌋

/-- State of RateLimiter (app/utils/rate_limiter.py lines 28-44): fields
requests_per_second, max_tokens, current_tokens, last_refill. -/
structure RateLimiterState where
  requests_per_second : ℚ
  max_tokens : Int
  current_tokens : Int
  last_refill : Option ℚ
deriving Repr, DecidableEq

/-- RateLimiter.__init__ (lines 28-44). Python evaluates
max_tokens as the expression burst_capacity or int(requests_per_second),
where a burst_capacity of 0 (falsy) also falls back to int(requests_per_second);
current_tokens starts at max_tokens and last_refill at None.
No argument validation is performed. -/
def mkRateLimiter (rps : ℚ) (burst : Option Int) : RateLimiterState :=
  let mt : Int :=
    match burst with
    | some b => if b = 0 then pyInt rps else b
    | none => pyInt rps
  { requests_per_second := rps
    max_tokens := mt
    current_tokens := mt
    last_refill := none }

/-- RateLimiter._refill_tokens (lines 100-121), with now the value of
datetime.now(): when last_refill is None it is initialised to now; otherwise
tokens_to_add = elapsed * requests_per_second is committed (truncated, and
clamped at max_tokens) only when it is at least 1, also advancing last_refill. -/
def refill_tokens (now : ℚ) (s : RateLimiterState) : RateLimiterState :=
  match s.last_refill with
  | none => { s with last_refill := some now }
  | some lr =>
    let elapsed := now - lr
    let tokens_to_add := elapsed * s.requests_per_second
    if 1 ≤ tokens_to_add then
      { s with
        current_tokens := min s.max_tokens (s.current_tokens + pyInt tokens_to_add)
        last_refill := some now }
    else s

/-- RateLimiter.try_acquire (lines 75-98): refill first, then consume the
requested tokens when available, returning whether acquisition succeeded. -/
def try_acquire (now : ℚ) (tokens : Int) (s : RateLimiterState) :
    Bool × RateLimiterState :=
  let s1 := refill_tokens now s
  if tokens ≤ s1.current_tokens then
    (true, { s1 with current_tokens := s1.current_tokens - tokens })
  else
    (false, s1)

/-- The wait-time computation inside RateLimiter.acquire (line 59):
wait_time = (tokens - current_tokens) / requests_per_second. Python raises
ZeroDivisionError when requests_per_second is 0.0, embedded as Option.none. -/
def acquireWaitTime (s : RateLimiterState) (tokens : Int) : Option ℚ :=
  if s.requests_per_second = 0 then none
  else some (((tokens : ℚ) - (s.current_tokens : ℚ)) / s.requests_per_second)

/-- RateLimiter.acquire (lines 46-73): loop while tokens are insufficient,
sleeping for the computed wait time (a negative wait is an immediate wakeup)
and refilling, then consume. The fuel argument bounds the number of loop
iterations; Option.none means fuel exhaustion or a ZeroDivisionError in the
wait computation. On success the returned pair is the completion time and the
updated state. -/
def acquire (fuel : Nat) (now : ℚ) (tokens : Int) (s : RateLimiterState) :
    Option (ℚ × RateLimiterState) :=
  match fuel with
  | 0 => none
  | f + 1 =>
    if s.current_tokens < tokens then
      match acquireWaitTime s tokens with
      | none => none
      | some w =>
        let now2 := now + max w 0
        acquire f now2 tokens (refill_tokens now2 s)
    else
      some (now, { s with current_tokens := s.current_tokens - tokens })

/-- RateLimiter.reset (lines 153-158). -/
def resetLimiter (now : ℚ) (s : RateLimiterState) : RateLimiterState :=
  { s with current_tokens := s.max_tokens, last_refill := some now }

/-- One recorded response sample (rate_limiter.py lines 223-228). -/
structure ResponseSample where
  timestamp : ℚ
  status_code : Int
  response_time : ℚ
  is_error : Bool
deriving Repr, DecidableEq

/-- State of AdaptiveRateLimiter (lines 186-207), extending the base state. -/
structure AdaptiveRateLimiterState extends RateLimiterState where
  min_requests_per_second : ℚ
  max_requests_per_second : ℚ
  adaptation_factor : ℚ
  recent_responses : List ResponseSample
deriving Repr, DecidableEq

/-- AdaptiveRateLimiter.__init__ (lines 186-207): the base constructor is
called with the initial rate and no burst capacity; the initial rate is NOT
clamped into the configured bounds. -/
def mkAdaptiveRateLimiter (initial minR maxR factor : ℚ) :
    AdaptiveRateLimiterState :=
  { toRateLimiterState := mkRateLimiter initial none
    min_requests_per_second := minR
    max_requests_per_second := maxR
    adaptation_factor := factor
    recent_responses := [] }

/-- AdaptiveRateLimiter._adjust_rate (lines 240-275): the first matching rule
computes a candidate rate, which is clamped into the configured bounds; when
the clamped rate differs from the old one, requests_per_second and max_tokens
(as int(new_rate)) are updated; current_tokens is left untouched. -/
def adjust_rate (status_code : Int) (response_time : ℚ) (is_error : Bool)
    (a : AdaptiveRateLimiterState) : AdaptiveRateLimiterState :=
  let old_rate := a.requests_per_second
  let candidate : Option ℚ :=
    if status_code = 429 then
      some (old_rate * (1 - a.adaptation_factor * 2))
    else if is_error then
      some (old_rate * (1 - a.adaptation_factor))
    else if 5 < response_time then
      some (old_rate * (1 - a.adaptation_factor * (1 / 2)))
    else if status_code = 200 ∧ response_time < 1 then
      some (old_rate * (1 + a.adaptation_factor * (1 / 5)))
    else
      none
  match candidate with
  | none => a
  | some c =>
    let new_rate :=
      max a.min_requests_per_second (min a.max_requests_per_second c)
    if new_rate ≠ old_rate then
      { a with
        requests_per_second := new_rate
        max_tokens := pyInt new_rate }
    else a

/-- AdaptiveRateLimiter.record_response (lines 209-238): append the sample,
drop the oldest past 100, then adjust the rate. -/
def record_response (sample : ResponseSample) (a : AdaptiveRateLimiterState) :
    AdaptiveRateLimiterState :=
  let appended := a.recent_responses ++ [sample]
  let trimmed := if 100 < appended.length then appended.drop 1 else appended
  adjust_rate sample.status_code sample.response_time sample.is_error
    { a with recent_responses := trimmed }

/-- A whole sequence of record_response calls, oldest first. -/
def record_many (a : AdaptiveRateLimiterState) (samples : List ResponseSample) :
    AdaptiveRateLimiterState :=
  samples.foldl (fun st sm => record_response sm st) a

/-- A Python value as stored in the cache and returned by the request layer.
The constructor PyVal.none embeds the Python value None, which is also what
CacheManager.get returns on a miss. -/
inductive PyVal where
  | none
  | bool (b : Bool)
  | int (n : Int)
  | str (s : String)
  | dict (entries : List (String × String))
  | listv (elems : List String)
deriving Repr, DecidableEq

/-- Python truthiness of a PyVal: None, False, 0, empty string, empty dict and
empty list are falsy. -/
def truthy : PyVal → Bool
  | PyVal.none => false
  | PyVal.bool b => b
  | PyVal.int n => n != 0
  | PyVal.str s => s ≠ ""
  | PyVal.dict l => l ≠ []
  | PyVal.listv l => l ≠ []

/-- CacheEntry (cache_manager.py lines 19-23). -/
structure CacheEntry where
  value : PyVal
  expires_at : ℚ
deriving Repr, DecidableEq

/-- The cache mapping, a Python dict: an association list with unique keys in
insertion order. -/
abbrev Cache := List (String × CacheEntry)

/-- Dict lookup: self._cache.get(key). -/
def lookupE : Cache → String → Option CacheEntry
  | [], _ => none
  | (k2, e) :: rest, k => if k2 = k then some e else lookupE rest k

/-- Dict deletion: del self._cache[key] (keys are unique, so removing every
binding of the key is the same operation). -/
def eraseE : Cache → String → Cache
  | [], _ => []
  | (k2, e) :: rest, k =>
    if k2 = k then eraseE rest k else (k2, e) :: eraseE rest k

/-- Dict update: self._cache[key] = entry replaces in place when the key is
present, otherwise appends at the end. -/
def setE : Cache → String → CacheEntry → Cache
  | [], k, e => [(k, e)]
  | (k2, e2) :: rest, k, e =>
    if k2 = k then (k, e) :: rest else (k2, e2) :: setE rest k e

/-- CacheManager.get (lines 83-104), with now the value of time.time():
returns None (PyVal.none) when the key is missing or the entry has expired
(an expired entry is also removed), otherwise the stored value. -/
def cache_get (now : ℚ) (key : String) (c : Cache) : PyVal × Cache :=
  match lookupE c key with
  | none => (PyVal.none, c)
  | some e =>
    if e.expires_at ≤ now then (PyVal.none, eraseE c key)
    else (e.value, c)

/-- CacheManager.set (lines 106-119): expires_at = time.time() + ttl. -/
def cache_set (now : ℚ) (key : String) (value : PyVal) (ttl : Int)
    (c : Cache) : Cache :=
  setE c key { value := value, expires_at := now + (ttl : ℚ) }

/-- CacheManager.delete (lines 121-135): removes the key and returns True
whenever the key is present, without re-checking expiry. -/
def cache_delete (key : String) (c : Cache) : Bool × Cache :=
  if (lookupE c key).isSome then (true, eraseE c key) else (false, c)

/-- CacheManager.touch (lines 212-230): returns False when the key is missing
or the entry has expired; otherwise replaces expires_at by time.time() + ttl. -/
def cache_touch (now : ℚ) (key : String) (ttl : Int) (c : Cache) :
    Bool × Cache :=
  match lookupE c key with
  | none => (false, c)
  | some e =>
    if e.expires_at ≤ now then (false, c)
    else (true, setE c key { e with expires_at := now + (ttl : ℚ) })

/-- Regular expressions, the fragment of Python re used by this repository:
literal characters, the dot, alternation, concatenation, star (with plus and
question mark as derived forms) and parenthesised groups. -/
inductive Regex where
  | eps
  | fail
  | chr (c : Char)
  | dot
  | alt (r1 r2 : Regex)
  | cat (r1 r2 : Regex)
  | star (r : Regex)
deriving Repr, DecidableEq

/-- Whether the regex accepts the empty string. -/
def nullable : Regex → Bool
  | Regex.eps => true
  | Regex.fail => false
  | Regex.chr _ => false
  | Regex.dot => false
  | Regex.alt r1 r2 => nullable r1 || nullable r2
  | Regex.cat r1 r2 => nullable r1 && nullable r2
  | Regex.star _ => true

/-- Brzozowski derivative of a regex by one character. -/
def charDeriv : Regex → Char → Regex
  | Regex.eps, _ => Regex.fail
  | Regex.fail, _ => Regex.fail
  | Regex.chr c, a => if a = c then Regex.eps else Regex.fail
  | Regex.dot, _ => Regex.eps
  | Regex.alt r1 r2, a => Regex.alt (charDeriv r1 a) (charDeriv r2 a)
  | Regex.cat r1 r2, a =>
    if nullable r1 then
      Regex.alt (Regex.cat (charDeriv r1 a) r2) (charDeriv r2 a)
    else
      Regex.cat (charDeriv r1 a) r2
  | Regex.star r, a => Regex.cat (charDeriv r a) (Regex.star r)

/-- Whether the regex matches some prefix of the character list, anchored at
the start: the semantics of a truthy Python re.match. -/
def matchesAtStart : Regex → List Char → Bool
  | r, [] => nullable r
  | r, c :: cs => nullable r || matchesAtStart (charDeriv r c) cs

/-- regex.match(key) viewed as a Boolean: does the compiled pattern match at
position 0 (any prefix suffices). -/
def reMatch (r : Regex) (s : String) : Bool :=
  matchesAtStart r s.data

/-- Whether a character is one of the repetition operators. -/
def isRepChar (c : Char) : Bool :=
  c = '*' || c = '+' || c = '?'

/-- Reject a second consecutive repetition operator (Python re.error
multiple repeat), as in the pattern a**. -/
def guardRep (r : Regex) (cs : List Char) : Option (Regex × List Char) :=
  match cs with
  | c :: _ => if isRepChar c then none else some (r, cs)
  | [] => some (r, [])

/-- Apply an optional postfix repetition operator to a parsed atom. -/
def postfixRep (r : Regex) (cs : List Char) : Option (Regex × List Char) :=
  match cs with
  | '*' :: rest => guardRep (Regex.star r) rest
  | '+' :: rest => guardRep (Regex.cat r (Regex.star r)) rest
  | '?' :: rest => guardRep (Regex.alt r Regex.eps) rest
  | _ => some (r, cs)

/-- Recursive-descent parser for the regex fragment, modelling re.compile.
Level 0 parses an alternation, level 1 a concatenation, any other level a
repeated atom. Option.none is a compile error (Python re.error): a repetition
with nothing to repeat, an unbalanced parenthesis, a trailing backslash, or a
construct outside the supported fragment. The fuel argument bounds recursion
depth and is sized generously by reCompile. -/
def parseRx (fuel : Nat) (lvl : Nat) (cs : List Char) :
    Option (Regex × List Char) :=
  match fuel with
  | 0 => none
  | f + 1 =>
    match lvl with
    | 0 =>
      match parseRx f 1 cs with
      | some (r, '|' :: rest) =>
        match parseRx f 0 rest with
        | some (r2, rest2) => some (Regex.alt r r2, rest2)
        | none => none
      | some (r, rest) => some (r, rest)
      | none => none
    | 1 =>
      match cs with
      | [] => some (Regex.eps, [])
      | c :: _ =>
        if c = '|' ∨ c = ')' then some (Regex.eps, cs)
        else
          match parseRx f 2 cs with
          | none => none
          | some (r, rest) =>
            match parseRx f 1 rest with
            | some (r2, rest2) => some (Regex.cat r r2, rest2)
            | none => none
    | _ =>
      match cs with
      | [] => none
      | '(' :: rest =>
        match parseRx f 0 rest with
        | some (r, ')' :: rest2) => postfixRep r rest2
        | _ => none
      | '.' :: rest => postfixRep Regex.dot rest
      | '\\' :: c :: rest => postfixRep (Regex.chr c) rest
      | c :: rest =>
        if c = ')' ∨ c = '|' ∨ c = '*' ∨ c = '+' ∨ c = '?' ∨ c = '\\' ∨
            c = '[' ∨ c = '{' then
          none
        else
          postfixRep (Regex.chr c) rest

/-- re.compile(pattern): parse the whole pattern, failing (Option.none, the
embedding of a raised re.error) when the parse errors or leaves input. -/
def reCompile (pattern : String) : Option Regex :=
  match parseRx (6 * pattern.length + 6) 0 pattern.data with
  | some (r, []) => some r
  | _ => none

/-- CacheManager.get_keys (lines 232-247): all keys, or the keys accepted by
re.match of the compiled pattern; no expiry filtering. Option.none embeds a
raised re.error on a malformed pattern. -/
def cache_get_keys (pattern : Option String) (c : Cache) :
    Option (List String) :=
  match pattern with
  | none => some (c.map Prod.fst)
  | some p =>
    match reCompile p with
    | none => none
    | some r => some ((c.map Prod.fst).filter (fun k => reMatch r k))

/-- CacheManager.clear (lines 137-163): with no pattern, drop everything and
report the previous size; with a pattern, compile it (a malformed pattern
raises before any deletion, embedded as Option.none), collect the matching
keys, delete each, and report how many keys were collected. -/
def cache_clear (pattern : Option String) (c : Cache) : Option (Nat × Cache) :=
  match pattern with
  | none => some (c.length, [])
  | some p =>
    match reCompile p with
    | none => none
    | some r =>
      let keys_to_delete := (c.map Prod.fst).filter (fun k => reMatch r k)
      some (keys_to_delete.length, keys_to_delete.foldl eraseE c)

/-- CacheManager.exists (lines 200-210): await self.get(key) is not None,
propagating get's opportunistic removal. -/
def cache_exists (now : ℚ) (key : String) (c : Cache) : Bool × Cache :=
  let r := cache_get now key c
  (decide (r.1 ≠ PyVal.none), r.2)

/-- The cache-check step of OpenTextService._make_request (lines 143-148):
only a GET with a truthy (non-empty) cache_key consults the cache, and the
cached value is served only when it is truthy; otherwise the call proceeds to
rate limiting and the upstream request (first component Option.none). -/
def makeRequestCacheStep (now : ℚ) (method : String)
    (cache_key : Option String) (c : Cache) : Option PyVal × Cache :=
  if method = "GET" then
    match cache_key with
    | some k =>
      if k ≠ "" then
        let r := cache_get now k c
        if truthy r.1 then (some r.1, r.2) else (none, r.2)
      else (none, c)
    | none => (none, c)
  else (none, c)

/-- The outcome of one item's fetch inside a batch, as seen by
asyncio.gather(..., return_exceptions=True): a domain object, a Python None
(get_account and get_fax_usage convert OpenTextAPIError to None), or a
captured exception. -/
inductive FetchOutcome (β : Type) where
  | ok (v : β)
  | nothing
  | exn
deriving Repr, DecidableEq

/-- The success value of an outcome, when there is one. -/
def FetchOutcome.toOk : FetchOutcome β → Option β
  | FetchOutcome.ok v => some v
  | _ => none

/-- Consecutive chunks of a list, fuel-indexed so that it computes by kernel
reduction; the fuel is always instantiated with the list length. -/
def chunksFuel (fuel : Nat) (bs : Nat) (l : List α) : List (List α) :=
  match fuel, l with
  | 0, _ => []
  | _, [] => []
  | f + 1, x :: xs =>
    (x :: xs).take bs :: chunksFuel f bs ((x :: xs).drop bs)

/-- The chunking range(0, len(items), batch_size) performed by the batch
methods; a batch size of 0 raises ValueError in Python and is mapped to the
empty list here (all theorems assume a positive batch size). -/
def chunks (bs : Nat) (l : List α) : List (List α) :=
  if bs = 0 then [] else chunksFuel l.length bs l

/-- The shared shape of OpenTextService.get_accounts_batch (lines 212-239),
sync_fax_usage (lines 337-374) and batch_porting_status (lines 428-455):
split the items into consecutive chunks of batch_size; for each chunk gather
one outcome per item (fetch is the per-item coroutine, its outcome captured
individually); then append to the accumulator only the successful domain
objects, dropping None results and captured exceptions. -/
def batchFanOut (bs : Nat) (fetch : α → FetchOutcome β) (items : List α) :
    List β :=
  (chunks bs items).foldl
    (fun acc chunk => acc ++ (chunk.map fetch).filterMap FetchOutcome.toOk) []

/-- OpenTextService.get_accounts_batch (lines 212-239), with fetch standing
for get_account on one account id. -/
def get_accounts_batch (bs : Nat) (fetch : α → FetchOutcome β)
    (account_ids : List α) : List β :=
  batchFanOut bs fetch account_ids

/-- OpenTextService.sync_fax_usage (lines 337-374), with fetch standing for
get_fax_usage on one account id for the fixed date range. -/
def sync_fax_usage (bs : Nat) (fetch : α → FetchOutcome β)
    (account_ids : List α) : List β :=
  batchFanOut bs fetch account_ids

/-- OpenTextService.batch_porting_status (lines 428-455), with fetch standing
for get_porting_status on one phone number. -/
def batch_porting_status (bs : Nat) (fetch : α → FetchOutcome β)
    (phone_numbers : List α) : List β :=
  batchFanOut bs fetch phone_numbers

/-! ### Helper lemmas about the dict embedding -/

lemma lookupE_setE_self (c : Cache) (k : String) (e : CacheEntry) :
    lookupE (setE c k e) k = some e := by
  induction c with
  | nil => simp [setE, lookupE]
  | cons p rest ih =>
    obtain ⟨k2, e2⟩ := p
    by_cases h : k2 = k
    · simp [setE, h, lookupE]
    · simp [setE, h, lookupE, ih]

lemma mem_keys_of_lookupE (c : Cache) (k : String) (e : CacheEntry)
    (h : lookupE c k = some e) : k ∈ c.map Prod.fst := by
  induction c with
  | nil => simp [lookupE] at h
  | cons p rest ih =>
    obtain ⟨k2, e2⟩ := p
    by_cases hk : k2 = k
    · simp [hk]
    · simp [lookupE, hk] at h
      simp [ih h]

/-! ### C8: set followed by get, before and after the TTL -/

/-- C8: for every key, value and positive ttl, set(k, v, ttl) at time t0
followed by get(k) at a time t1 strictly before t0 + ttl returns v, and at any
time t1 at or after t0 + ttl (with no intervening mutation of k) returns the
absent marker. -/
theorem c8_set_then_get (c : Cache) (k : String) (v : PyVal) (ttl : Int)
    (t0 t1 : ℚ) (_httl : 0 < ttl) :
    (t1 < t0 + (ttl : ℚ) →
      (cache_get t1 k (cache_set t0 k v ttl c)).1 = v) ∧
    (t0 + (ttl : ℚ) ≤ t1 →
      (cache_get t1 k (cache_set t0 k v ttl c)).1 = PyVal.none) := by
  have hl : lookupE (cache_set t0 k v ttl c) k =
      some { value := v, expires_at := t0 + (ttl : ℚ) } :=
    lookupE_setE_self c k _
  constructor
  · intro h
    have hne : ¬ ((t0 + (ttl : ℚ)) ≤ t1) := not_le.mpr h
    simp [cache_get, hl, hne]
  · intro h
    simp [cache_get, hl, h]

/-- C8 witness: set at time 0 with ttl 10; get at time 5 returns the value,
get at time 10 returns the absent marker. -/
theorem c8_witness :
    (cache_get 5 "k" (cache_set 0 "k" (PyVal.int 7) 10 [])).1 = PyVal.int 7 ∧
    (cache_get 10 "k" (cache_set 0 "k" (PyVal.int 7) 10 [])).1 = PyVal.none := by
  constructor
  · exact (c8_set_then_get [] "k" (PyVal.int 7) 10 0 5 (by norm_num)).1 (by norm_num)
  · exact (c8_set_then_get [] "k" (PyVal.int 7) 10 0 10 (by norm_num)).2 (by norm_num)

/-! ### C3: how each public operation treats an expired-but-present entry -/

/-- C3 counterexample: with a single entry expired at time 5 observed at time
10, delete returns True (the claim requires False) and get_keys lists the key
(the claim requires it absent), even though get already treats the entry as
absent. -/
theorem c3_counterexample :
    (cache_get 10 "k" [("k", { value := PyVal.int 1, expires_at := 5 })]).1 =
      PyVal.none ∧
    (cache_delete "k" [("k", { value := PyVal.int 1, expires_at := 5 })]).1 =
      true ∧
    cache_get_keys none [("k", { value := PyVal.int 1, expires_at := 5 })] =
      some ["k"] := by
  decide

/-- C3 amended: for an entry with expiresAt <= now, get returns absent and
touch returns false; but delete still removes the entry and returns true, and
get_keys still lists its key. -/
theorem c3_amended (now : ℚ) (k : String) (ttl : Int) (c : Cache)
    (e : CacheEntry) (hlk : lookupE c k = some e)
    (hexp : e.expires_at ≤ now) :
    (cache_get now k c).1 = PyVal.none ∧
    (cache_touch now k ttl c).1 = false ∧
    (cache_delete k c).1 = true ∧
    cache_get_keys none c = some (c.map Prod.fst) ∧
    k ∈ c.map Prod.fst := by
  refine ⟨?_, ?_, ?_, ?_, ?_⟩
  · simp [cache_get, hlk, hexp]
  · simp [cache_touch, hlk, hexp]
  · simp [cache_delete, hlk]
  · simp [cache_get_keys]
  · exact mem_keys_of_lookupE c k e hlk

/-- C3 amended witness: the amended behavior at the concrete expired entry. -/
theorem c3_amended_witness :
    (cache_get 10 "x" [("x", { value := PyVal.str "v", expires_at := 7 })]).1 =
      PyVal.none ∧
    (cache_touch 10 "x" 99
      [("x", { value := PyVal.str "v", expires_at := 7 })]).1 = false ∧
    (cache_delete "x" [("x", { value := PyVal.str "v", expires_at := 7 })]).1 =
      true ∧
    cache_get_keys none [("x", { value := PyVal.str "v", expires_at := 7 })] =
      some (([("x", { value := PyVal.str "v", expires_at := 7 })] :
        Cache).map Prod.fst) ∧
    "x" ∈ ([("x", { value := PyVal.str "v", expires_at := 7 })] :
        Cache).map Prod.fst := by
  exact c3_amended 10 "x" 99 [("x", { value := PyVal.str "v", expires_at := 7 })]
    { value := PyVal.str "v", expires_at := 7 } (by decide) (by norm_num)

/-! ### C10: falsy cached values are indistinguishable from a miss -/

/-- C10: a live entry whose stored value is None is reported absent by get and
by exists; and the request path of _make_request treats any falsy cached value
as a cache miss, proceeding to the upstream call (first component none). -/
theorem c10_falsy_is_miss (now : ℚ) (k : String) (c : Cache) (e : CacheEntry)
    (hlk : lookupE c k = some e) (hlive : now < e.expires_at) :
    (e.value = PyVal.none →
      (cache_get now k c).1 = PyVal.none ∧ (cache_exists now k c).1 = false) ∧
    (truthy e.value = false →
      (makeRequestCacheStep now "GET" (some k) c).1 = none) := by
  have hne : ¬ (e.expires_at ≤ now) := not_le.mpr hlive
  constructor
  · intro hv
    constructor
    · simp [cache_get, hlk, hne, hv]
    · simp [cache_exists, cache_get, hlk, hne, hv]
  · intro ht
    by_cases hk : k = ""
    · simp [makeRequestCacheStep, hk]
    · simp [makeRequestCacheStep, hk, cache_get, hlk, hne, ht]

/-- C10 witness: a live None-valued entry is a miss for get and exists, and a
live empty-document entry makes the request path call upstream. -/
theorem c10_witness :
    ((cache_get 0 "n" [("n", { value := PyVal.none, expires_at := 100 }),
        ("d", { value := PyVal.dict [], expires_at := 100 })]).1 =
      PyVal.none ∧
     (cache_exists 0 "n" [("n", { value := PyVal.none, expires_at := 100 }),
        ("d", { value := PyVal.dict [], expires_at := 100 })]).1 = false) ∧
    (makeRequestCacheStep 0 "GET" (some "d")
        [("n", { value := PyVal.none, expires_at := 100 }),
         ("d", { value := PyVal.dict [], expires_at := 100 })]).1 = none := by
  constructor
  · exact (c10_falsy_is_miss 0 "n"
      [("n", { value := PyVal.none, expires_at := 100 }),
       ("d", { value := PyVal.dict [], expires_at := 100 })]
      { value := PyVal.none, expires_at := 100 }
      (by decide) (by norm_num)).1 rfl
  · exact (c10_falsy_is_miss 0 "d"
      [("n", { value := PyVal.none, expires_at := 100 }),
       ("d", { value := PyVal.dict [], expires_at := 100 })]
      { value := PyVal.dict [], expires_at := 100 }
      (by decide) (by norm_num)).2 (by decide)

/-! ### C9: pattern-filtered clear -/

lemma eraseE_eq_filter (c : Cache) (k : String) :
    eraseE c k = c.filter (fun p => decide (p.1 ≠ k)) := by
  induction c with
  | nil => simp [eraseE]
  | cons q rest ih =>
    obtain ⟨k2, e2⟩ := q
    by_cases h : k2 = k
    · simp [eraseE, h, ih]
    · simp [eraseE, h, ih]

lemma foldl_eraseE (ks : List String) (c : Cache) :
    ks.foldl eraseE c = c.filter (fun p => decide (¬ p.1 ∈ ks)) := by
  induction ks generalizing c with
  | nil => simp
  | cons k rest ih =>
    have step : (k :: rest).foldl eraseE c = rest.foldl eraseE (eraseE c k) :=
      rfl
    rw [step, ih, eraseE_eq_filter, List.filter_filter]
    apply List.filter_congr
    intro p _
    by_cases h1 : p.1 = k <;> by_cases h2 : p.1 ∈ rest <;>
      simp [h1, h2, List.mem_cons]

/-- C9: with a pattern that compiles, clear removes exactly the keys matched
(anchored at the start) by the compiled pattern and returns their count,
leaving every non-matching entry unchanged; with a malformed pattern the call
fails (the raised re.error happens before any deletion) and in particular
never behaves as match-all. -/
theorem c9_clear_pattern (p : String) (c : Cache) :
    (∀ r, reCompile p = some r →
      cache_clear (some p) c =
        some (((c.map Prod.fst).filter (fun k => reMatch r k)).length,
          c.filter (fun q => ! reMatch r q.1))) ∧
    (reCompile p = none → cache_clear (some p) c = none) := by
  constructor
  · intro r hr
    simp only [cache_clear, hr]
    rw [foldl_eraseE]
    have hf : List.filter
        (fun q => decide
          (¬ q.1 ∈ (c.map Prod.fst).filter (fun k => reMatch r k))) c =
        List.filter (fun q => ! reMatch r q.1) c := by
      apply List.filter_congr
      intro q hq
      have hmem : q.1 ∈ c.map Prod.fst := List.mem_map_of_mem Prod.fst hq
      by_cases hm : reMatch r q.1 = true
      · simp [List.mem_filter, hmem, hm]
      · simp [List.mem_filter, hm]
    rw [hf]
  · intro hr
    simp [cache_clear, hr]

/-- The three-entry cache of the specification's clear example. -/
def cacheABC : Cache :=
  [("a:1", { value := PyVal.int 1, expires_at := 100 }),
   ("a:2", { value := PyVal.int 2, expires_at := 100 }),
   ("b:1", { value := PyVal.int 3, expires_at := 100 })]

/-- C9 witness: on keys a:1, a:2, b:1 the pattern a:.* clears exactly two
entries and leaves b:1; the malformed pattern ( fails leaving the cache
untouched. -/
theorem c9_witness :
    cache_clear (some "a:.*") cacheABC =
      some (2, [("b:1", { value := PyVal.int 3, expires_at := 100 })]) ∧
    cache_clear (some "(") cacheABC = none := by
  constructor
  · have h := (c9_clear_pattern "a:.*" cacheABC).1
      (Regex.cat (Regex.chr 'a')
        (Regex.cat (Regex.chr ':') (Regex.cat (Regex.star Regex.dot) Regex.eps)))
      (by decide)
    rw [h]
    decide
  · exact (c9_clear_pattern "(" cacheABC).2 (by decide)

/-! ### Batch fan-out: C1 and C6 -/

lemma foldl_append_g (g : List α → List β) (L : List (List α))
    (acc : List β) :
    L.foldl (fun a c => a ++ g c) acc = acc ++ L.flatMap g := by
  induction L generalizing acc with
  | nil => simp
  | cons x xs ih => simp [List.foldl_cons, ih, List.append_assoc]

lemma chunksFuel_bind (h : α → Option β) (bs : Nat) (hbs : 0 < bs) :
    ∀ (fuel : Nat) (l : List α), l.length ≤ fuel →
      ((chunksFuel fuel bs l).flatMap fun c => c.filterMap h) = l.filterMap h := by
  intro fuel
  induction fuel with
  | zero =>
    intro l hl
    rw [Nat.le_zero] at hl
    rw [List.length_eq_zero] at hl
    subst hl
    simp [chunksFuel]
  | succ f ih =>
    intro l hl
    cases l with
    | nil => simp [chunksFuel]
    | cons x xs =>
      have hlen : ((x :: xs).drop bs).length ≤ f := by
        simp only [List.length_drop, List.length_cons]
        simp only [List.length_cons] at hl
        omega
      show ((x :: xs).take bs :: chunksFuel f bs ((x :: xs).drop bs)).flatMap
          (fun c => c.filterMap h) = (x :: xs).filterMap h
      rw [List.flatMap_cons, ih _ hlen, ← List.filterMap_append,
        List.take_append_drop]

lemma batchFanOut_eq_filterMap (bs : Nat) (hbs : 0 < bs)
    (fetch : α → FetchOutcome β) (items : List α) :
    batchFanOut bs fetch items =
      items.filterMap (fun i => (fetch i).toOk) := by
  unfold batchFanOut chunks
  rw [if_neg (Nat.pos_iff_ne_zero.mp hbs), foldl_append_g, List.nil_append]
  have hg : (fun c : List α => (c.map fetch).filterMap FetchOutcome.toOk) =
      fun c : List α => c.filterMap (fun i => (fetch i).toOk) := by
    funext c
    rw [List.filterMap_map]
    rfl
  rw [hg]
  exact chunksFuel_bind (fun i => (fetch i).toOk) bs hbs items.length items
    le_rfl

/-- The per-item fetch of the specification's ten-item example: item 4 always
fails, every other item succeeds. -/
def failFourFetch : Nat → FetchOutcome Nat :=
  fun i => if i = 4 then FetchOutcome.exn else FetchOutcome.ok i

/-- C1 counterexample: on the specification's own example (10 items, batch
size 3, item 4 always failing) the batch fan-out returns a 9-element list of
the successes with nothing at item 4's position, not a 10-element list with a
Failure at that position. -/
theorem c1_counterexample :
    get_accounts_batch 3 failFourFetch [1, 2, 3, 4, 5, 6, 7, 8, 9, 10] =
      [1, 2, 3, 5, 6, 7, 8, 9, 10] ∧
    (get_accounts_batch 3 failFourFetch
      [1, 2, 3, 4, 5, 6, 7, 8, 9, 10]).length = 9 := by
  decide

/-- C1 amended: for every positive batch size, the batch fan-out operations
return exactly the successful results, in input order (the input list
filter-mapped through the per-item success value); items whose fetch failed or
returned an absent result are silently omitted, so the result list is shorter
than the input whenever any item fails. -/
theorem c1_amended (bs : Nat) (hbs : 0 < bs) (fetch : α → FetchOutcome β)
    (items : List α) :
    get_accounts_batch bs fetch items =
      items.filterMap (fun i => (fetch i).toOk) ∧
    sync_fax_usage bs fetch items =
      items.filterMap (fun i => (fetch i).toOk) ∧
    batch_porting_status bs fetch items =
      items.filterMap (fun i => (fetch i).toOk) :=
  ⟨batchFanOut_eq_filterMap bs hbs fetch items,
   batchFanOut_eq_filterMap bs hbs fetch items,
   batchFanOut_eq_filterMap bs hbs fetch items⟩

/-- C1 amended witness: the amended statement at the concrete example. -/
theorem c1_amended_witness :
    get_accounts_batch 3 failFourFetch [1, 2, 3, 4, 5, 6, 7, 8, 9, 10] =
      ([1, 2, 3, 4, 5, 6, 7, 8, 9, 10] : List Nat).filterMap
        (fun i => (failFourFetch i).toOk) :=
  (c1_amended 3 (by decide) failFourFetch [1, 2, 3, 4, 5, 6, 7, 8, 9, 10]).1

/-- C6: one failing item never aborts the call or any other item's work — for
every positive batch size and every decomposition of the input around a
failing item, the result of the batch fan-out equals the results of the
surrounding items processed as if the failing item's failure had no effect on
them (siblings in the same chunk and all later chunks included). -/
theorem c6_failure_isolation (bs : Nat) (hbs : 0 < bs)
    (fetch : α → FetchOutcome β) (pre post : List α) (bad : α)
    (hbad : (fetch bad).toOk = none) :
    get_accounts_batch bs fetch (pre ++ bad :: post) =
      get_accounts_batch bs fetch pre ++ get_accounts_batch bs fetch post ∧
    sync_fax_usage bs fetch (pre ++ bad :: post) =
      sync_fax_usage bs fetch pre ++ sync_fax_usage bs fetch post := by
  have h1 := batchFanOut_eq_filterMap bs hbs fetch (pre ++ bad :: post)
  have h2 := batchFanOut_eq_filterMap bs hbs fetch pre
  have h3 := batchFanOut_eq_filterMap bs hbs fetch post
  constructor
  · show batchFanOut bs fetch (pre ++ bad :: post) =
      batchFanOut bs fetch pre ++ batchFanOut bs fetch post
    rw [h1, h2, h3, List.filterMap_append, List.filterMap_cons, hbad]
  · show batchFanOut bs fetch (pre ++ bad :: post) =
      batchFanOut bs fetch pre ++ batchFanOut bs fetch post
    rw [h1, h2, h3, List.filterMap_append, List.filterMap_cons, hbad]

/-- C6 witness: isolation of item 4's failure in the ten-item example. -/
theorem c6_witness :
    get_accounts_batch 3 failFourFetch ([1, 2, 3] ++ 4 :: [5, 6, 7, 8, 9, 10]) =
      get_accounts_batch 3 failFourFetch [1, 2, 3] ++
        get_accounts_batch 3 failFourFetch [5, 6, 7, 8, 9, 10] :=
  (c6_failure_isolation 3 (by decide) failFourFetch [1, 2, 3]
    [5, 6, 7, 8, 9, 10] 4 (by decide)).1

/-! ### C7: the refill rule -/

/-- C7: when last_refill holds a timestamp, the refill step with
tokensToAdd = (now - lastRefill) * rate commits
tokens := min(capacity, tokens + floor(tokensToAdd)) and advances lastRefill
to now exactly when tokensToAdd >= 1, and leaves the state entirely unchanged
when tokensToAdd < 1 (the sub-1 fractional accumulation is dropped). -/
theorem c7_refill_rule (s : RateLimiterState) (now lr : ℚ)
    (h : s.last_refill = some lr) :
    (1 ≤ (now - lr) * s.requests_per_second →
      refill_tokens now s =
        { s with
          current_tokens := min s.max_tokens
            (s.current_tokens + ⌊(now - lr) * s.requests_per_second⌋)
          last_refill := some now }) ∧
    ((now - lr) * s.requests_per_second < 1 → refill_tokens now s = s) := by
  constructor
  · intro hge
    have hnn : ¬ ((now - lr) * s.requests_per_second < 0) := by linarith
    simp [refill_tokens, h, hge, pyInt, hnn]
  · intro hlt
    have hn : ¬ (1 ≤ (now - lr) * s.requests_per_second) := not_le.mpr hlt
    simp [refill_tokens, h, hn]

/-- C7 witness: with rate 5, 3 tokens and last refill at 0, a check at time
1/2 commits floor(5/2) = 2 tokens and advances last_refill, while a check at
time 1/10 (tokensToAdd = 1/2 < 1) leaves the state entirely unchanged. -/
theorem c7_witness :
    refill_tokens (1 / 2)
        { requests_per_second := 5, max_tokens := 10, current_tokens := 3,
          last_refill := some 0 } =
      { requests_per_second := 5, max_tokens := 10,
        current_tokens := min 10 (3 + ⌊((1 / 2 : ℚ) - 0) * 5⌋),
        last_refill := some (1 / 2) } ∧
    refill_tokens (1 / 10)
        { requests_per_second := 5, max_tokens := 10, current_tokens := 3,
          last_refill := some 0 } =
      { requests_per_second := 5, max_tokens := 10, current_tokens := 3,
        last_refill := some 0 } := by
  constructor
  · exact (c7_refill_rule
      { requests_per_second := 5, max_tokens := 10, current_tokens := 3,
        last_refill := some 0 } (1 / 2) 0 rfl).1 (by norm_num)
  · exact (c7_refill_rule
      { requests_per_second := 5, max_tokens := 10, current_tokens := 3,
        last_refill := some 0 } (1 / 10) 0 rfl).2 (by norm_num)

/-! ### C2: construction-time validation versus call-time failure -/

/-- C2 counterexample: constructing the limiter with requests_per_second = 0
does not fail — it yields an ordinary state — and on that successfully
constructed limiter the wait computation inside acquire fails with a
ZeroDivisionError at call time, as does the acquire call itself; the claim's
construction-time check does not exist. -/
theorem c2_counterexample :
    mkRateLimiter 0 none =
      { requests_per_second := 0, max_tokens := 0, current_tokens := 0,
        last_refill := none } ∧
    acquireWaitTime (mkRateLimiter 0 none) 1 = none ∧
    acquire 5 0 1 (mkRateLimiter 0 none) = none := by
  refine ⟨?_, ?_, ?_⟩
  · simp [mkRateLimiter, pyInt]
  · simp [acquireWaitTime, mkRateLimiter, pyInt]
  · simp [acquire, acquireWaitTime, mkRateLimiter, pyInt]

/-- C2 amended: construction never fails and performs no validation — any
requests_per_second (including non-positive) is stored as given, and a burst
capacity of 0 (falsy in Python) silently falls back to the truncated rate;
invalid configuration surfaces only at call time, the wait computation inside
acquire failing by division by zero exactly when requests_per_second is 0. -/
theorem c2_amended :
    (∀ (rps : ℚ) (b : Option Int),
      (mkRateLimiter rps b).requests_per_second = rps) ∧
    (∀ rps : ℚ, (mkRateLimiter rps (some 0)).max_tokens = pyInt rps) ∧
    (∀ (s : RateLimiterState) (n : Int),
      acquireWaitTime s n = none ↔ s.requests_per_second = 0) := by
  refine ⟨?_, ?_, ?_⟩
  · intro rps b
    cases b <;> simp [mkRateLimiter]
  · intro rps
    simp [mkRateLimiter]
  · intro s n
    constructor
    · intro h
      by_contra hne
      simp [acquireWaitTime, hne] at h
    · intro h
      simp [acquireWaitTime, h]

/-! ### C4: the tokens/capacity invariant -/

lemma pyInt_nonneg (q : ℚ) (h : 0 ≤ q) : 0 ≤ pyInt q := by
  rw [pyInt, if_neg (not_lt.mpr h)]
  exact Int.floor_nonneg.mpr h

lemma refill_tokens_max (now : ℚ) (s : RateLimiterState) :
    (refill_tokens now s).max_tokens = s.max_tokens := by
  unfold refill_tokens
  dsimp only
  repeat' split
  all_goals rfl

lemma refill_tokens_nonneg (now : ℚ) (s : RateLimiterState)
    (h0 : 0 ≤ s.current_tokens) (hmax : 0 ≤ s.max_tokens) :
    0 ≤ (refill_tokens now s).current_tokens := by
  rcases hl : s.last_refill with _ | lr
  · simp only [refill_tokens, hl]
    exact h0
  · simp only [refill_tokens, hl]
    split
    · next hge =>
      have htta : (0 : ℚ) ≤ (now - lr) * s.requests_per_second := by linarith
      exact le_min hmax (add_nonneg h0 (pyInt_nonneg _ htta))
    · exact h0

lemma try_acquire_nonneg (now : ℚ) (n : Int) (s : RateLimiterState)
    (h0 : 0 ≤ s.current_tokens) (hmax : 0 ≤ s.max_tokens) :
    0 ≤ (try_acquire now n s).2.current_tokens := by
  have hr := refill_tokens_nonneg now s h0 hmax
  unfold try_acquire
  dsimp only
  split
  · next hle => exact sub_nonneg.mpr hle
  · exact hr

lemma acquire_nonneg (fuel : Nat) (now : ℚ) (n : Int) (s : RateLimiterState)
    (t : ℚ) (s2 : RateLimiterState)
    (h : acquire fuel now n s = some (t, s2)) :
    0 ≤ s2.current_tokens := by
  induction fuel generalizing now s with
  | zero => simp [acquire] at h
  | succ f ih =>
    rw [acquire] at h
    split at h
    · next hlt =>
      rcases hw : acquireWaitTime s n with _ | w
      · rw [hw] at h
        simp at h
      · rw [hw] at h
        dsimp only at h
        exact ih _ _ h
    · next hge =>
      simp only [Option.some.injEq, Prod.mk.injEq] at h
      obtain ⟨-, rfl⟩ := h
      exact sub_nonneg.mpr (not_lt.mp hge)

lemma record_response_current (sm : ResponseSample)
    (a : AdaptiveRateLimiterState) :
    (record_response sm a).current_tokens = a.current_tokens := by
  unfold record_response adjust_rate
  dsimp only
  repeat' split
  all_goals rfl

lemma record_response_max_nonneg (sm : ResponseSample)
    (a : AdaptiveRateLimiterState)
    (hmin : 0 ≤ a.min_requests_per_second) (hmax : 0 ≤ a.max_tokens) :
    0 ≤ (record_response sm a).max_tokens := by
  unfold record_response adjust_rate
  dsimp only
  repeat' split
  all_goals
    first
    | exact hmax
    | exact pyInt_nonneg _ (le_trans hmin (le_max_left _ _))

/-- The adaptive limiter of the specification's examples, built with initial
rate 10, bounds 1 and 100, adaptation factor 1/10. -/
def adaptiveEx : AdaptiveRateLimiterState :=
  mkAdaptiveRateLimiter 10 1 100 (1 / 10)

/-- A recorded HTTP 429 response with response time 1/10 second. -/
def sample429 : ResponseSample :=
  { timestamp := 0, status_code := 429, response_time := 1 / 10,
    is_error := false }

/-- The adaptive limiter of the examples right after recording one 429. -/
def adaptiveExAfter429 : AdaptiveRateLimiterState :=
  record_response sample429 adaptiveEx

/-- C4 counterexample: starting from the adaptive limiter with rate 10 and 10
tokens, one recorded 429 lowers the rate to 8 and re-derives the capacity as
floor(8) = 8 while leaving 10 tokens, so tokens <= capacity is already false
immediately after recordResponse; the violation survives the next two refill
checks (the first merely initialises last_refill, the second has
tokensToAdd = 2/25 < 1 and commits nothing). -/
theorem c4_counterexample :
    adaptiveExAfter429.current_tokens = 10 ∧
    adaptiveExAfter429.max_tokens = 8 ∧
    ¬ (adaptiveExAfter429.current_tokens ≤ adaptiveExAfter429.max_tokens) ∧
    (refill_tokens (1 / 100)
      (refill_tokens 0 adaptiveExAfter429.toRateLimiterState)).current_tokens
      = 10 ∧
    (refill_tokens (1 / 100)
      (refill_tokens 0 adaptiveExAfter429.toRateLimiterState)).max_tokens
      = 8 := by
  have hstate : adaptiveExAfter429.toRateLimiterState =
      { requests_per_second := 8, max_tokens := 8, current_tokens := 10,
        last_refill := none } := by
    norm_num [adaptiveExAfter429, adaptiveEx, sample429, record_response,
      adjust_rate, mkAdaptiveRateLimiter, mkRateLimiter, pyInt, max_def,
      min_def]
  refine ⟨?_, ?_, ?_, ?_, ?_⟩
  · norm_num [adaptiveExAfter429, adaptiveEx, sample429, record_response,
      adjust_rate, mkAdaptiveRateLimiter, mkRateLimiter, pyInt, max_def,
      min_def]
  · norm_num [adaptiveExAfter429, adaptiveEx, sample429, record_response,
      adjust_rate, mkAdaptiveRateLimiter, mkRateLimiter, pyInt, max_def,
      min_def]
  · norm_num [adaptiveExAfter429, adaptiveEx, sample429, record_response,
      adjust_rate, mkAdaptiveRateLimiter, mkRateLimiter, pyInt, max_def,
      min_def]
  · rw [hstate]
    norm_num [refill_tokens]
  · rw [hstate]
    norm_num [refill_tokens]

/-- C4 amended: the lower half of the invariant holds — tokens stay at least 0
after refill, tryAcquire, reset, acquire and recordResponse (for a
nonnegative starting state and nonnegative configured minimum rate) — and any
refill check that commits (tokensToAdd >= 1) clamps tokens back to at most
capacity; but immediately after recordResponse lowers the rate and re-derives
capacity as floor(newRate), tokens may exceed capacity, and refill checks
that do not commit leave the excess in place. -/
theorem c4_amended :
    (∀ (s : RateLimiterState) (now lr : ℚ), s.last_refill = some lr →
      1 ≤ (now - lr) * s.requests_per_second →
      (refill_tokens now s).current_tokens ≤
        (refill_tokens now s).max_tokens) ∧
    (∀ (s : RateLimiterState) (now : ℚ), 0 ≤ s.current_tokens →
      0 ≤ s.max_tokens → 0 ≤ (refill_tokens now s).current_tokens) ∧
    (∀ (s : RateLimiterState) (now : ℚ) (n : Int), 0 ≤ s.current_tokens →
      0 ≤ s.max_tokens → 0 ≤ (try_acquire now n s).2.current_tokens) ∧
    (∀ (s : RateLimiterState) (now : ℚ), 0 ≤ s.max_tokens →
      0 ≤ (resetLimiter now s).current_tokens) ∧
    (∀ (fuel : Nat) (now : ℚ) (n : Int) (s : RateLimiterState) (t : ℚ)
      (s2 : RateLimiterState), acquire fuel now n s = some (t, s2) →
      0 ≤ s2.current_tokens) ∧
    (∀ (sm : ResponseSample) (a : AdaptiveRateLimiterState),
      0 ≤ a.min_requests_per_second → 0 ≤ a.current_tokens →
      0 ≤ a.max_tokens →
      0 ≤ (record_response sm a).current_tokens ∧
      0 ≤ (record_response sm a).max_tokens) := by
  refine ⟨?_, ?_, ?_, ?_, ?_, ?_⟩
  · intro s now lr h hge
    simp only [refill_tokens, h]
    rw [if_pos hge]
    exact min_le_left _ _
  · exact fun s now h0 hmax => refill_tokens_nonneg now s h0 hmax
  · exact fun s now n h0 hmax => try_acquire_nonneg now n s h0 hmax
  · intro s now h
    simpa [resetLimiter] using h
  · exact fun fuel now n s t s2 h => acquire_nonneg fuel now n s t s2 h
  · intro sm a hmin h0 hmax
    constructor
    · rw [record_response_current]
      exact h0
    · exact record_response_max_nonneg sm a hmin hmax

/-- C4 amended witness: each conjunct of the amended invariant applied to a
concrete state (including the over-capacity state 12 tokens against capacity
10, which a committing refill clamps). -/
theorem c4_witness :
    ((refill_tokens 1
        { requests_per_second := 5, max_tokens := 10, current_tokens := 12,
          last_refill := some 0 }).current_tokens ≤
      (refill_tokens 1
        { requests_per_second := 5, max_tokens := 10, current_tokens := 12,
          last_refill := some 0 }).max_tokens) ∧
    0 ≤ (refill_tokens 1
        { requests_per_second := 5, max_tokens := 10, current_tokens := 3,
          last_refill := some 0 }).current_tokens ∧
    0 ≤ (try_acquire 1 1
        { requests_per_second := 5, max_tokens := 10, current_tokens := 3,
          last_refill := some 0 }).2.current_tokens ∧
    0 ≤ (resetLimiter 1
        { requests_per_second := 5, max_tokens := 10, current_tokens := 3,
          last_refill := some 0 }).current_tokens ∧
    0 ≤ ((⟨5, 10, 2, some 0⟩ : RateLimiterState)).current_tokens ∧
    (0 ≤ (record_response sample429 adaptiveEx).current_tokens ∧
      0 ≤ (record_response sample429 adaptiveEx).max_tokens) := by
  refine ⟨?_, ?_, ?_, ?_, ?_, ?_⟩
  · exact c4_amended.1
      { requests_per_second := 5, max_tokens := 10, current_tokens := 12,
        last_refill := some 0 } 1 0 rfl (by norm_num)
  · exact c4_amended.2.1
      { requests_per_second := 5, max_tokens := 10, current_tokens := 3,
        last_refill := some 0 } 1 (by norm_num) (by norm_num)
  · exact c4_amended.2.2.1
      { requests_per_second := 5, max_tokens := 10, current_tokens := 3,
        last_refill := some 0 } 1 1 (by norm_num) (by norm_num)
  · exact c4_amended.2.2.2.1
      { requests_per_second := 5, max_tokens := 10, current_tokens := 3,
        last_refill := some 0 } 1 (by norm_num)
  · exact c4_amended.2.2.2.2.1 1 0 1
      { requests_per_second := 5, max_tokens := 10, current_tokens := 3,
        last_refill := some 0 } 0
      (⟨5, 10, 2, some 0⟩ : RateLimiterState)
      (by norm_num [acquire])
  · exact c4_amended.2.2.2.2.2 sample429 adaptiveEx
      (by norm_num [adaptiveEx, mkAdaptiveRateLimiter, mkRateLimiter, pyInt])
      (by norm_num [adaptiveEx, mkAdaptiveRateLimiter, mkRateLimiter, pyInt])
      (by norm_num [adaptiveEx, mkAdaptiveRateLimiter, mkRateLimiter, pyInt])

/-! ### C5: the rate bounds invariant -/

lemma record_response_minmax (sm : ResponseSample)
    (a : AdaptiveRateLimiterState) :
    (record_response sm a).min_requests_per_second =
      a.min_requests_per_second ∧
    (record_response sm a).max_requests_per_second =
      a.max_requests_per_second := by
  unfold record_response adjust_rate
  dsimp only
  repeat' split
  all_goals exact ⟨rfl, rfl⟩

lemma record_response_rate_bounds (sm : ResponseSample)
    (a : AdaptiveRateLimiterState)
    (h1 : a.min_requests_per_second ≤ a.requests_per_second)
    (h2 : a.requests_per_second ≤ a.max_requests_per_second) :
    a.min_requests_per_second ≤ (record_response sm a).requests_per_second ∧
    (record_response sm a).requests_per_second ≤
      a.max_requests_per_second := by
  have hmm : a.min_requests_per_second ≤ a.max_requests_per_second :=
    le_trans h1 h2
  unfold record_response adjust_rate
  dsimp only
  repeat' split
  all_goals
    first
    | exact ⟨h1, h2⟩
    | exact ⟨le_max_left _ _, max_le hmm (min_le_left _ _)⟩

/-- C5 counterexample: the adaptive constructor does not clamp the initial
rate, so with initial rate 200 and bounds 1 and 100 the invariant
refillRatePerSecond in the bounds is already violated immediately after
construction, before any adjustment. -/
theorem c5_counterexample :
    (mkAdaptiveRateLimiter 200 1 100 (1 / 10)).requests_per_second = 200 ∧
    (mkAdaptiveRateLimiter 200 1 100 (1 / 10)).max_requests_per_second =
      100 ∧
    ¬ ((mkAdaptiveRateLimiter 200 1 100 (1 / 10)).requests_per_second ≤
        (mkAdaptiveRateLimiter 200 1 100 (1 / 10)).max_requests_per_second)
    := by
  refine ⟨?_, ?_, ?_⟩
  · simp [mkAdaptiveRateLimiter, mkRateLimiter]
  · simp [mkAdaptiveRateLimiter]
  · norm_num [mkAdaptiveRateLimiter, mkRateLimiter]

/-- C5 amended: provided the rate starts within [minRate, maxRate] (which any
effective adjustment's clamp guarantees, but construction does not), it stays
within those bounds after every sequence of recordResponse calls. -/
theorem c5_amended (a : AdaptiveRateLimiterState)
    (samples : List ResponseSample)
    (h1 : a.min_requests_per_second ≤ a.requests_per_second)
    (h2 : a.requests_per_second ≤ a.max_requests_per_second) :
    a.min_requests_per_second ≤ (record_many a samples).requests_per_second ∧
    (record_many a samples).requests_per_second ≤
      a.max_requests_per_second := by
  induction samples generalizing a with
  | nil => exact ⟨h1, h2⟩
  | cons sm rest ih =>
    have hb := record_response_rate_bounds sm a h1 h2
    have hc := record_response_minmax sm a
    have hr := ih (record_response sm a) (hc.1 ▸ hb.1) (hc.2 ▸ hb.2)
    show a.min_requests_per_second ≤
        (record_many (record_response sm a) rest).requests_per_second ∧
      (record_many (record_response sm a) rest).requests_per_second ≤
        a.max_requests_per_second
    exact ⟨hc.1 ▸ hr.1, hc.2 ▸ hr.2⟩

/-- C5 amended witness: the bounds hold after recording a 429 on the
in-bounds limiter with rate 10 in [1, 100]. -/
theorem c5_witness :
    adaptiveEx.min_requests_per_second ≤
      (record_many adaptiveEx [sample429]).requests_per_second ∧
    (record_many adaptiveEx [sample429]).requests_per_second ≤
      adaptiveEx.max_requests_per_second :=
  c5_amended adaptiveEx [sample429]
    (by norm_num [adaptiveEx, mkAdaptiveRateLimiter, mkRateLimiter])
    (by norm_num [adaptiveEx, mkAdaptiveRateLimiter, mkRateLimiter])
